import Mathlib

/-!
Verification development for the agentic-avatar repository: a shallow
embedding of the real-time session relay (server.js), the tool-call
dispatcher (avatar-controller.js), the PCM capture resampler
(audio-processor.js), the streaming playback handler
(streaming-handler.js), the client message handler (app.js, Gemini Live
variant) and the audio-driven lip-sync patch (avatar-fix.js).

Numbers: JavaScript floats are modelled as rationals; Int16Array stores
truncate toward zero.  Side-effecting calls into the external TalkingHead
engine, the DOM and the upstream Gemini session are modelled as emitted
effect values; handlers return the new state together with the list of
effects performed, in order.
-/

/-- JavaScript Math.round: round half toward positive infinity. -/
def jsRound (q : ℚ) : ℤ := ⌊q + 1/2⌋

/-- Truncation toward zero, as performed when a JavaScript number is stored
into an Int16Array element (within range, no wrapping occurs). -/
def ratTrunc (q : ℚ) : ℤ := if q < 0 then ⌈q⌉ else ⌊q⌋

/-! ## AudioProcessor (public/js/audio-processor.js) -/

namespace AudioProcessor

/-- `AudioProcessor._downsample(float32Array, fromRate, toRate)`: linear
interpolation resampler.  `buf.getD i 0` stands for in-range indexing
(all generated indices are in range for the rates used by the program). -/
def downsample (buf : List ℚ) (fromRate toRate : ℚ) : List ℚ :=
  if fromRate = toRate then buf
  else
    let rr := fromRate / toRate
    let newLength := (jsRound ((buf.length : ℚ) / rr)).toNat
    (List.range newLength).map (fun (i : ℕ) =>
      let srcIndex : ℚ := (i : ℚ) * rr
      let low : ℤ := ⌊srcIndex⌋
      let high : ℤ := min (low + 1) ((buf.length : ℤ) - 1)
      let frac : ℚ := srcIndex - (low : ℚ)
      buf.getD low.toNat 0 * (1 - frac) + buf.getD high.toNat 0 * frac)

/-- `AudioProcessor._float32ToInt16`, one sample: clamp to [-1, 1], scale
negatives by 0x8000 and non-negatives by 0x7FFF, store into Int16Array. -/
def float32ToInt16 (x : ℚ) : ℤ :=
  let s := max (-1) (min 1 x)
  if s < 0 then ratTrunc (s * 0x8000) else ratTrunc (s * 0x7FFF)

/-- Peak absolute amplitude of a buffer. -/
def maxAbs (l : List ℚ) : ℚ := l.foldr (fun x m => max |x| m) 0

/-- A 2 kHz sine wave sampled at 48 kHz for one 24-sample period repeated
twice (48 samples), with the sample values sin(2*pi*k/24) written as
4-decimal rationals; the exact peaks 1 and -1 occur at k = 6 and k = 18. -/
def sineBuf : List ℚ :=
  [0, 0.2588, 0.5, 0.7071, 0.866, 0.9659, 1, 0.9659, 0.866, 0.7071, 0.5,
   0.2588, 0, -0.2588, -0.5, -0.7071, -0.866, -0.9659, -1, -0.9659, -0.866,
   -0.7071, -0.5, -0.2588,
   0, 0.2588, 0.5, 0.7071, 0.866, 0.9659, 1, 0.9659, 0.866, 0.7071, 0.5,
   0.2588, 0, -0.2588, -0.5, -0.7071, -0.866, -0.9659, -1, -0.9659, -0.866,
   -0.7071, -0.5, -0.2588]

end AudioProcessor

/-! ## Animation catalog (public/js/animation-library.js)

Only the `name`, `file` and `duration` fields are consulted by the code;
`description`, `category` and `useCase` feed the AI prompt text only. -/

structure AnimConfig where
  name : String
  file : String
  duration : ℚ
deriving DecidableEq, Repr

def animationLibrary : List AnimConfig :=
  [⟨"waving", "Waving.fbx", 3⟩,
   ⟨"acknowledging", "acknowledging.fbx", 3⟩,
   ⟨"salute", "salute.fbx", 3⟩,
   ⟨"asking_question", "asking_question.fbx", 4⟩,
   ⟨"head_nod_yes", "head_nod_yes.fbx", 3⟩,
   ⟨"shaking_head_no", "shaking_head_no.fbx", 3⟩,
   ⟨"talking", "talking.fbx", 4⟩,
   ⟨"thinking", "thinking.fbx", 4⟩,
   ⟨"cheering", "Cheering.fbx", 4⟩,
   ⟨"clapping", "Clapping.fbx", 3⟩,
   ⟨"joyful", "Joyful Jump.fbx", 4⟩,
   ⟨"victory", "Victory.fbx", 4⟩,
   ⟨"fist_pump", "fist_pump.fbx", 3⟩,
   ⟨"breakdance", "Breakdance 1990.fbx", 8⟩,
   ⟨"dancing", "dancing.fbx", 6⟩,
   ⟨"belly_dance", "belly_dance.fbx", 8⟩,
   ⟨"gangnam_style", "gangnam_style.fbx", 8⟩,
   ⟨"moonwalk", "moonwalk.fbx", 4⟩,
   ⟨"excited", "excited.fbx", 4⟩,
   ⟨"happy_idle", "happy_idle.fbx", 4⟩,
   ⟨"laughing", "laughing.fbx", 5⟩,
   ⟨"defeated", "Defeated.fbx", 5⟩,
   ⟨"agony", "agony.fbx", 4⟩,
   ⟨"angry", "angry.fbx", 5⟩,
   ⟨"crying", "crying.fbx", 5⟩,
   ⟨"disappointed", "disappointed.fbx", 4⟩,
   ⟨"defeat", "defeat.fbx", 4⟩,
   ⟨"yelling", "yelling.fbx", 4⟩,
   ⟨"looking", "Looking.fbx", 4⟩,
   ⟨"looking_around", "looking_around.fbx", 4⟩,
   ⟨"pointing", "Pointing.fbx", 3⟩,
   ⟨"backflip", "backflip.fbx", 3⟩,
   ⟨"jump", "jump.fbx", 2⟩,
   ⟨"getting_up", "getting_up.fbx", 3⟩,
   ⟨"falling", "falling.fbx", 3⟩,
   ⟨"death", "death.fbx", 4⟩,
   ⟨"sneaking_forward", "sneaking_forward.fbx", 4⟩,
   ⟨"praying", "Praying.fbx", 5⟩,
   ⟨"blocking", "blocking.fbx", 3⟩,
   ⟨"dodging", "dodging.fbx", 3⟩,
   ⟨"fight_idle", "fight_idle.fbx", 4⟩,
   ⟨"hit_reaction", "hit_reaction.fbx", 2⟩,
   ⟨"kicking", "kicking.fbx", 2⟩,
   ⟨"punching", "punching.fbx", 2⟩,
   ⟨"walking", "walking.fbx", 4⟩,
   ⟨"running", "running.fbx", 3⟩,
   ⟨"jogging", "jogging.fbx", 4⟩,
   ⟨"happy_walk", "happy_walk.fbx", 3⟩,
   ⟨"sad_walk", "sad_walk.fbx", 3⟩,
   ⟨"crouch_walk", "crouch_walk.fbx", 3⟩,
   ⟨"idle", "idle.fbx", 5⟩,
   ⟨"crouch_idle", "crouch_idle.fbx", 4⟩,
   ⟨"sitting_idle", "sitting_idle.fbx", 5⟩,
   ⟨"kneeling_idle", "kneeling_idle.fbx", 4⟩,
   ⟨"jumping_jacks", "jumping_jacks.fbx", 4⟩,
   ⟨"push_up", "push_up.fbx", 4⟩]

/-- `getAnimation(name)`: first catalog entry with that name. -/
def getAnimation (name : String) : Option AnimConfig :=
  animationLibrary.find? (fun anim => anim.name = name)

/-- encodeURIComponent restricted to the catalog filename alphabet
(letters, digits, underscore, dot, space): only the space is escaped. -/
def encodeFileName (s : String) : String :=
  String.join (s.toList.map (fun c => if c = ' ' then "%20" else String.singleton c))

/-! ## Tool schema enums declared to Gemini (server.js, avatarTools) -/

def moodEnum : List String := ["happy", "sad", "neutral", "angry", "love"]

def gestureEnum : List String :=
  ["handup", "index", "ok", "thumbup", "thumbdown", "side", "shrug", "namaste"]

def animationEnum : List String :=
  ["waving", "breakdance", "cheering", "clapping", "defeated", "joyful",
   "looking", "pointing", "praying", "victory"]

def viewEnum : List String := ["head", "upper", "mid", "full"]

/-! ## Tool-call arguments (the `args` object of a tool call) -/

structure ToolArgs where
  mood : Option String := none
  expression : Option String := none
  gesture : Option String := none
  animation : Option String := none
  view : Option String := none
  duration : Option ℚ := none
deriving DecidableEq, Repr

/-! ## AvatarController (public/js/avatar-controller.js)

Controller state is the mutable fields of the class; calls into the
TalkingHead engine are emitted as `HeadEffect` values.  Every head call in
this class sits inside try/catch (the errors are logged and swallowed), so
the handlers below are total and their outputs do not depend on whether
the head call throws. -/

structure AvatarState where
  currentMood : String
  isSpeaking : Bool
deriving DecidableEq, Repr

inductive HeadEffect where
  | setMoodHead (mood : String)
  | setFixedValue (target : String) (value : ℚ) (durationMs : ℕ)
  | playGestureHead (gesture : String) (durationS : ℚ)
  | playAnimationHead (url : String) (durationS : ℚ) (scale : ℚ)
  | setViewHead (view : String)
  | syncCameraDropdown (view : String)
deriving DecidableEq, Repr

namespace AvatarController

/-- `setMood(mood)`: records the mood and attempts `head.setMood` (whose
failure, e.g. for a mood TalkingHead does not know, is caught and only
logged; `currentMood` is already updated when that happens). -/
def setMood (st : AvatarState) (mood : String) : AvatarState × List HeadEffect :=
  ({ st with currentMood := mood }, [HeadEffect.setMoodHead mood])

/-- The micro-expression table of `playExpression`. -/
def expressionsTable (e : String) : Option (List (String × ℚ)) :=
  if e = "wink" then some [("eyeBlinkLeft", 1)]
  else if e = "raised_eyebrow" then some [("browOuterUpLeft", 0.8)]
  else if e = "surprise" then
    some [("eyeWideLeft", 0.8), ("eyeWideRight", 0.8), ("browInnerUp", 0.8),
          ("jawOpen", 0.4)]
  else if e = "thinking" then
    some [("eyeLookUpLeft", 0.5), ("mouthPucker", 0.3), ("browInnerUp", 0.3)]
  else if e = "smirk" then
    some [("mouthSmileLeft", 0.5), ("browOuterUpLeft", 0.3)]
  else if e = "pout" then
    some [("mouthPucker", 0.6), ("mouthFrownLeft", 0.3), ("mouthFrownRight", 0.3),
          ("browInnerUp", 0.4)]
  else if e = "tongue_out" then
    some [("tongueOut", 0.7), ("mouthSmileLeft", 0.15), ("mouthSmileRight", 0.15)]
  else if e = "eye_roll" then
    some [("eyeLookUpLeft", 0.6), ("eyeLookUpRight", 0.6), ("eyeBlinkLeft", 0.3),
          ("eyeBlinkRight", 0.3)]
  else if e = "cringe" then
    some [("eyeSquintLeft", 0.8), ("eyeSquintRight", 0.8), ("noseSneerLeft", 0.5),
          ("noseSneerRight", 0.5), ("mouthStretchLeft", 0.5), ("mouthStretchRight", 0.5)]
  else if e = "cheek_puff" then some [("cheekPuff", 0.8)]
  else none

/-- `playExpression(expression)`: unknown expressions log a warning and do
nothing; known ones set each morph target as a fixed value for 2000 ms. -/
def playExpression (st : AvatarState) (e : String) : AvatarState × List HeadEffect :=
  match expressionsTable e with
  | none => (st, [])
  | some morphs => (st, morphs.map (fun m => HeadEffect.setFixedValue m.1 m.2 2000))

/-- `playGesture(gesture, duration)`. -/
def playGesture (st : AvatarState) (g : String) (d : ℚ) : AvatarState × List HeadEffect :=
  (st, [HeadEffect.playGestureHead g d])

/-- `playAnimation(animationName, duration = 5, scale = 0.01)`: looks the
name up in `window.animationLibrary`; when absent it logs a warning and
returns false without touching the avatar.  When present it plays the clip
from the encoded file URL; `finalDuration = duration || animConfig.duration
|| 5` (JavaScript: 0 is falsy). -/
def playAnimation (name : String) (dur : Option ℚ) : Bool × List HeadEffect :=
  let duration := dur.getD 5
  match getAnimation name with
  | none => (false, [])
  | some animConfig =>
    let finalDuration :=
      if duration ≠ 0 then duration
      else if animConfig.duration ≠ 0 then animConfig.duration else 5
    (true, [HeadEffect.playAnimationHead
              ("/saas/avatar/animations/" ++ encodeFileName animConfig.file)
              finalDuration (1/100)])

/-- `setCameraView(view)`: `head.setView` exists on this TalkingHead build,
so the guarded branch always runs and also syncs the UI dropdown. -/
def setCameraView (st : AvatarState) (v : String) : AvatarState × List HeadEffect :=
  (st, [HeadEffect.setViewHead v, HeadEffect.syncCameraDropdown v])

/-- `handleToolCall(name, args)`: the switch statement, returning the result
string sent back as the tool response together with the new controller
state and the head calls performed.  Missing argument fields interpolate as
the string "undefined" in JavaScript template literals.  Note that
`playAnimation` is async and not awaited here: its work is modelled as the
effects below, and its result string does not depend on it. -/
def handleToolCall (st : AvatarState) (name : String) (args : ToolArgs) :
    String × AvatarState × List HeadEffect :=
  if name = "set_mood" then
    let mood := args.mood.getD "undefined"
    let r := setMood st mood
    ("Mood set to " ++ mood, r.1, r.2)
  else if name = "set_expression" then
    let e := args.expression.getD "undefined"
    let r := playExpression st e
    ("Playing expression " ++ e, r.1, r.2)
  else if name = "play_gesture" then
    let g := args.gesture.getD "undefined"
    let d := match args.duration with
      | some q => if q = 0 then 2 else q
      | none => 2
    let r := playGesture st g d
    ("Playing gesture " ++ g, r.1, r.2)
  else if name = "play_animation" then
    let a := args.animation.getD "undefined"
    let r := playAnimation a args.duration
    ("Playing animation " ++ a, st, r.2)
  else if name = "set_camera_view" then
    let v := args.view.getD "undefined"
    let r := setCameraView st v
    ("Camera view set to " ++ v, r.1, r.2)
  else
    ("Unknown tool: " ++ name, st, [])

end AvatarController

/-! ## Relay messages (server.js, the JSON tagged unions) -/

/-- Gemini function call inside an upstream toolCall event. -/
structure FunctionCall where
  id : String
  name : String
  args : ToolArgs
deriving DecidableEq, Repr

/-- Relay-to-client messages. -/
inductive DownMsg where
  | sessionStarted
  | setupComplete
  | audioChunk (data : String) (mimeType : String)
  | outputTranscription (text : String)
  | inputTranscription (text : String)
  | text (text : String)
  | toolCall (id : String) (name : String) (args : ToolArgs)
  | interrupted
  | turnComplete
  | sessionEnded (reason : Option String)
  | errorMsg (message : String)
deriving DecidableEq, Repr

/-- Client-to-relay messages. -/
inductive ClientMsg where
  | startSession (voice : Option String)
  | audioChunk (data : String)
  | textMessage (text : String)
  | toolResponse (id : String) (name : String) (result : Option String)
  | stopSession
  | other (t : String)
deriving DecidableEq, Repr

/-! ## Server connection state and handlers (server.js) -/

/-- The per-connection mutable variables of the wss connection closure,
plus the readiness of the client websocket (`ws.readyState === OPEN`),
which gates `sendToClient`. -/
structure ConnState where
  geminiSession : Bool
  sessionActive : Bool
  audioChunkCount : ℕ
  micChunkCount : ℕ
  wsOpen : Bool
deriving DecidableEq, Repr

inductive ServerEffect where
  | send (m : DownMsg)
  | forwardAudio (data : String) (mimeType : String)
  | forwardText (text : String)
  | forwardToolResponse (id : String) (name : String) (result : String)
  | closeGemini
  | connectGemini (voice : String)
deriving DecidableEq, Repr

/-- `sendToClient(ws, data)`: sends only when the websocket is open. -/
def sendToClient (st : ConnState) (m : DownMsg) : List ServerEffect :=
  if st.wsOpen then [ServerEffect.send m] else []

/-- The `ws.on('message')` switch.  `closeFails` says whether an attempted
`geminiSession.close()` throws; every close sits in try/catch with an
empty handler, so the result never depends on it.  The start_session case
models the synchronous prefix of `startGeminiSession` (close any existing
session, reset the per-turn counters, initiate the async connect); session
activation itself happens later in the onopen callback. -/
def handleClientMessage (_closeFails : Bool) (st : ConnState) (m : ClientMsg) :
    ConnState × List ServerEffect :=
  match m with
  | ClientMsg.startSession voice =>
    ({ st with audioChunkCount := 0, micChunkCount := 0 },
     (if st.geminiSession then [ServerEffect.closeGemini] else [])
       ++ [ServerEffect.connectGemini (voice.getD "Aoede")])
  | ClientMsg.audioChunk data =>
    if st.geminiSession ∧ st.sessionActive then
      ({ st with micChunkCount := st.micChunkCount + 1 },
       [ServerEffect.forwardAudio data "audio/pcm;rate=16000"])
    else (st, [])
  | ClientMsg.textMessage t =>
    if st.geminiSession ∧ st.sessionActive then (st, [ServerEffect.forwardText t])
    else (st, [])
  | ClientMsg.toolResponse id name result =>
    if st.geminiSession ∧ st.sessionActive then
      (st, [ServerEffect.forwardToolResponse id name (result.getD "ok")])
    else (st, [])
  | ClientMsg.stopSession =>
    ({ st with sessionActive := false, geminiSession := false },
     (if st.geminiSession then [ServerEffect.closeGemini] else [])
       ++ sendToClient st (DownMsg.sessionEnded none))
  | ClientMsg.other _ => (st, [])

/-- Number of session_ended messages among a list of effects. -/
def countSessionEnded (l : List ServerEffect) : ℕ :=
  (l.filter (fun e =>
    match e with
    | ServerEffect.send (DownMsg.sessionEnded _) => true
    | _ => false)).length

/-- State after a list of client messages (effects discarded). -/
def runClientMessages (closeFails : Bool) (st : ConnState) (ms : List ClientMsg) : ConnState :=
  ms.foldl (fun s m => (handleClientMessage closeFails s m).1) st

/-! ## Upstream Gemini messages and handleGeminiMessage (server.js) -/

structure InlineData where
  data : String
  mimeType : String
deriving DecidableEq, Repr

structure ModelPart where
  inlineData : Option InlineData
  text : Option String
deriving DecidableEq, Repr

structure ServerContent where
  interrupted : Bool
  outputTranscription : Option String
  inputTranscription : Option String
  modelTurn : Option (List ModelPart)
  turnComplete : Bool
deriving DecidableEq, Repr

/-- An upstream event.  `toolCall` collapses the presence of
`toolCall.functionCalls` and its list into one Option (both an absent
field and an empty list forward nothing). -/
structure GeminiMessage where
  setupComplete : Bool
  toolCall : Option (List FunctionCall)
  serverContent : Option ServerContent
  usageMetadata : Bool
deriving DecidableEq, Repr

/-- The per-part loop over `sc.modelTurn.parts`: inline audio data bumps the
per-turn counter and is forwarded; part text is forwarded as a text
message; JavaScript truthiness means empty strings are skipped. -/
def partEffects (wsOpen : Bool) : List ModelPart → ℕ → ℕ × List ServerEffect
  | [], c => (c, [])
  | p :: ps, c =>
    let step : ℕ × List ServerEffect :=
      match p.inlineData with
      | some d =>
        if d.data ≠ "" then
          (c + 1, if wsOpen then [ServerEffect.send (DownMsg.audioChunk d.data d.mimeType)] else [])
        else (c, [])
      | none => (c, [])
    let textEffs : List ServerEffect :=
      match p.text with
      | some t =>
        if t ≠ "" then (if wsOpen then [ServerEffect.send (DownMsg.text t)] else []) else []
      | none => []
    let rest := partEffects wsOpen ps step.1
    (rest.1, step.2 ++ textEffs ++ rest.2)

/-- `handleGeminiMessage(ws, message)`: classification of an upstream event
into downstream messages, with the early returns of the source (setup
complete, tool calls, interruption) and the counter reset on turn
completion.  Usage metadata is only logged. -/
def handleGeminiMessage (st : ConnState) (m : GeminiMessage) :
    ConnState × List ServerEffect :=
  if m.setupComplete then (st, sendToClient st DownMsg.setupComplete)
  else
    match m.toolCall with
    | some fcs =>
      (st, (fcs.map (fun fc => sendToClient st (DownMsg.toolCall fc.id fc.name fc.args))).flatten)
    | none =>
      match m.serverContent with
      | some sc =>
        if sc.interrupted then (st, sendToClient st DownMsg.interrupted)
        else
          let outEffs :=
            match sc.outputTranscription with
            | some t => if t ≠ "" then sendToClient st (DownMsg.outputTranscription t) else []
            | none => []
          let inEffs :=
            match sc.inputTranscription with
            | some t => if t ≠ "" then sendToClient st (DownMsg.inputTranscription t) else []
            | none => []
          let parts := partEffects st.wsOpen (sc.modelTurn.getD []) st.audioChunkCount
          let turnCount := if sc.turnComplete then 0 else parts.1
          let turnEffs := if sc.turnComplete then sendToClient st DownMsg.turnComplete else []
          ({ st with audioChunkCount := turnCount },
           outEffs ++ inEffs ++ parts.2 ++ turnEffs)
      | none => (st, [])

/-! ## StreamingHandler (public/js/streaming-handler.js, Gemini variant) -/

/-- The mutable fields of StreamingHandler. -/
structure StreamState where
  isStreamActive : Bool
  audioChunkCount : ℕ
  totalBytesReceived : ℕ
  totalAudioDurationMs : ℚ
deriving DecidableEq, Repr

inductive ClientEffect where
  | startStreamCall
  | streamAudio (bytes : ℕ)
  | streamInterrupt
  | streamStop
  | clearSubtitles
  | appendTranscript (t : String)
  | displayTranscript (t : String)
  | dispatchTool (id : String) (name : String) (args : ToolArgs)
  | speakingEnd
  | flushStream
  | showError (m : String)
deriving DecidableEq, Repr

namespace StreamingHandler

/-- `_reset()`: zero the per-turn counters (stream activity untouched). -/
def reset (s : StreamState) : StreamState :=
  { s with audioChunkCount := 0, totalBytesReceived := 0, totalAudioDurationMs := 0 }

/-- `interrupt()`: when the stream is active, tell the worklet to drop its
buffered audio and reset the per-turn counters; otherwise do nothing. -/
def interrupt (s : StreamState) : StreamState × List ClientEffect :=
  if s.isStreamActive then (reset s, [ClientEffect.streamInterrupt]) else (s, [])

/-- `feedAudio(base64Data)` with the decoded byte count: ignored while the
stream is inactive, otherwise counted and fed to the worklet. -/
def feedAudio (s : StreamState) (byteLen : ℕ) : StreamState × List ClientEffect :=
  if s.isStreamActive then
    ({ s with audioChunkCount := s.audioChunkCount + 1,
              totalBytesReceived := s.totalBytesReceived + byteLen,
              totalAudioDurationMs :=
                s.totalAudioDurationMs + (byteLen : ℚ) / 2 / 24000 * 1000 },
     [ClientEffect.streamAudio byteLen])
  else (s, [])

/-- `stopStream()`: stops the worklet, deactivates and resets. -/
def stopStream (s : StreamState) : StreamState × List ClientEffect :=
  if s.isStreamActive then
    ({ reset s with isStreamActive := false },
     [ClientEffect.streamStop, ClientEffect.clearSubtitles])
  else (s, [])

end StreamingHandler

/-- Number of bytes `atob` produces from a well-formed base64 string. -/
def atobLength (s : String) : ℕ :=
  s.length / 4 * 3 - (if s.endsWith "==" then 2 else if s.endsWith "=" then 1 else 0)

/-! ## Client application message handler (app.js, Gemini Live variant) -/

/-- Client app state: the streaming handler, the status tag last passed to
`updateStatus` and the session flag. -/
structure AppState where
  stream : StreamState
  statusState : String
  isSessionActive : Bool
deriving DecidableEq, Repr

/-- `handleServerMessage(msg)`: the client switch over relay messages.
Status updates are recorded via their state tag; `startStream` is async and
modelled as the emitted call. -/
def handleServerMessage (app : AppState) (m : DownMsg) : AppState × List ClientEffect :=
  match m with
  | DownMsg.sessionStarted =>
    ({ app with isSessionActive := true, statusState := "ready" },
     [ClientEffect.startStreamCall])
  | DownMsg.setupComplete => (app, [])
  | DownMsg.audioChunk data _ =>
    let r := StreamingHandler.feedAudio app.stream (atobLength data)
    ({ app with stream := r.1, statusState := "speaking" }, r.2)
  | DownMsg.outputTranscription t => (app, [ClientEffect.appendTranscript t])
  | DownMsg.inputTranscription t => (app, [ClientEffect.displayTranscript t])
  | DownMsg.text _ => (app, [])
  | DownMsg.toolCall id name args => (app, [ClientEffect.dispatchTool id name args])
  | DownMsg.interrupted =>
    let r := StreamingHandler.interrupt app.stream
    ({ app with stream := r.1, statusState := "listening" },
     r.2 ++ [ClientEffect.flushStream])
  | DownMsg.turnComplete =>
    ({ app with statusState := "listening" },
     [ClientEffect.speakingEnd, ClientEffect.flushStream])
  | DownMsg.sessionEnded _ =>
    let r := StreamingHandler.stopStream app.stream
    ({ app with stream := r.1, isSessionActive := false, statusState := "ready" }, r.2)
  | DownMsg.errorMsg msg => (app, [ClientEffect.showError msg])

/-! ## Lip-sync decay (public/js/avatar-fix.js, not-speaking branch)

State of the patched animate closure: the lip-sync mode detected once per
model, the smoothed volume, and the current realtime override of each
driven morph target (none = not overridden). -/

inductive LipMode where
  | viseme
  | mouthOpen
deriving DecidableEq, Repr

structure LipState where
  mode : LipMode
  smoothVol : ℚ
  aa : Option ℚ
  secE : Option ℚ
  secO : Option ℚ
  secI : Option ℚ
  secU : Option ℚ
  mouthOpenMT : Option ℚ
deriving DecidableEq, Repr

/-- One animate tick while `isSpeaking` is false: the smoothed volume decays
by 0.7 while above the 0.001 threshold (snapping to 0 below it), the
primary override follows the decayed volume until the threshold and then
clears to none, and the secondary viseme overrides clear immediately. -/
def decayTick (s : LipState) : LipState :=
  let v := if 1/1000 < s.smoothVol then s.smoothVol * (7/10) else 0
  match s.mode with
  | LipMode.viseme =>
    let aa :=
      match s.aa with
      | some _ => if 1/1000 < v then some (v * (85/100)) else none
      | none => none
    { s with smoothVol := v, aa := aa,
             secE := none, secO := none, secI := none, secU := none }
  | LipMode.mouthOpen =>
    let mo :=
      match s.mouthOpenMT with
      | some _ => if 1/1000 < v then some v else none
      | none => none
    { s with smoothVol := v, mouthOpenMT := mo }

/-- n not-speaking ticks. -/
def decayN : ℕ → LipState → LipState
  | 0, s => s
  | n + 1, s => decayTick (decayN n s)

/-- All realtime overrides driven in the detected mode are cleared. -/
def overridesCleared (s : LipState) : Prop :=
  match s.mode with
  | LipMode.viseme =>
    s.aa = none ∧ s.secE = none ∧ s.secO = none ∧ s.secI = none ∧ s.secU = none
  | LipMode.mouthOpen => s.mouthOpenMT = none

/-! # Theorems -/

/-! ## Resampler and quantizer (C4, C5) -/

/-- The clamp used by the quantizer lands in [-1, 1]. -/
theorem clamp_mem_Icc (x : ℚ) : -1 ≤ max (-1) (min 1 x) ∧ max (-1) (min 1 x) ≤ 1 :=
  ⟨le_max_left _ _, max_le (by norm_num) (min_le_left _ _)⟩

/-- At the rates 48000 and 16000 the interpolation indices are exact
integer multiples (ratio 3), so the resampler decimates: output i is
input sample 3i. -/
theorem downsample_48k_16k (buf : List ℚ) :
    AudioProcessor.downsample buf 48000 16000
      = (List.range (jsRound ((buf.length : ℚ) / 3)).toNat).map
          (fun (i : ℕ) => buf.getD (3 * i) 0) := by
  unfold AudioProcessor.downsample
  rw [if_neg (show (48000 : ℚ) ≠ 16000 by norm_num)]
  have h3 : (48000 : ℚ) / 16000 = 3 := by norm_num
  rw [h3]
  apply List.map_congr_left
  intro i _
  have hcast : (i : ℚ) * 3 = ((3 * i : ℕ) : ℚ) := by push_cast; ring
  simp only [hcast, Int.floor_natCast, Int.toNat_natCast]
  push_cast
  ring_nf

/-- The embedded sine buffer yields 16 output samples. -/
theorem sineBuf_outLen : (jsRound ((AudioProcessor.sineBuf.length : ℚ) / 3)).toNat = 16 := by
  have hl : AudioProcessor.sineBuf.length = 48 := by simp [AudioProcessor.sineBuf]
  rw [hl]
  unfold jsRound
  rw [show ((48 : ℕ) : ℚ) / 3 + 1/2 = 33/2 by norm_num]
  have h16 : ⌊(33/2 : ℚ)⌋ = 16 := by rw [Int.floor_eq_iff]; norm_num
  rw [h16]
  rfl

/-- The downsampled sine buffer, explicitly. -/
theorem sineBuf_downsampled : AudioProcessor.downsample AudioProcessor.sineBuf 48000 16000
    = [0, 0.7071, 1, 0.7071, 0, -0.7071, -1, -0.7071,
       0, 0.7071, 1, 0.7071, 0, -0.7071, -1, -0.7071] := by
  rw [downsample_48k_16k, sineBuf_outLen]
  rfl

/-- C5: the 16-bit quantizer clamps to [-1, 1] before scaling (negatives by
0x8000, non-negatives by 0x7FFF), its result always lies in
[-32768, 32767], and both extremes clip symmetrically: every input at or
below -1 maps to -32768 and every input at or above 1 maps to 32767. -/
theorem float32ToInt16_range :
    (∀ x : ℚ, -32768 ≤ AudioProcessor.float32ToInt16 x
      ∧ AudioProcessor.float32ToInt16 x ≤ 32767)
    ∧ (∀ x : ℚ, x ≤ -1 → AudioProcessor.float32ToInt16 x = -32768)
    ∧ (∀ x : ℚ, 1 ≤ x → AudioProcessor.float32ToInt16 x = 32767) := by
  refine ⟨?_, ?_, ?_⟩
  · intro x
    obtain ⟨h1, h2⟩ := clamp_mem_Icc x
    set s := max (-1) (min 1 x) with hs
    simp only [AudioProcessor.float32ToInt16, ratTrunc, ← hs]
    by_cases hneg : s < 0
    · rw [if_pos hneg]
      have hv : s * 0x8000 < 0 := mul_neg_of_neg_of_pos hneg (by norm_num)
      rw [if_pos hv]
      constructor
      · have hle : ((-32768 : ℤ) : ℚ) ≤ s * 0x8000 := by push_cast; nlinarith
        calc (-32768 : ℤ) = ⌈((-32768 : ℤ) : ℚ)⌉ := (Int.ceil_intCast _).symm
          _ ≤ ⌈s * 0x8000⌉ := Int.ceil_mono hle
      · have : ⌈s * 0x8000⌉ ≤ (0 : ℤ) := Int.ceil_le.mpr (by push_cast; linarith)
        omega
    · rw [if_neg hneg]
      push_neg at hneg
      have hv : ¬ s * 0x7FFF < 0 := by push_neg; positivity
      rw [if_neg hv]
      constructor
      · have : (0 : ℤ) ≤ ⌊s * 0x7FFF⌋ := Int.le_floor.mpr (by push_cast; positivity)
        omega
      · have hle : s * 0x7FFF ≤ ((32767 : ℤ) : ℚ) := by push_cast; nlinarith
        calc ⌊s * 0x7FFF⌋ ≤ ⌊((32767 : ℤ) : ℚ)⌋ := Int.floor_mono hle
          _ = 32767 := Int.floor_intCast _
  · intro x hx
    have h1 : min 1 x = x := min_eq_right (le_trans hx (by norm_num))
    have h2 : max (-1 : ℚ) x = -1 := max_eq_left hx
    simp only [AudioProcessor.float32ToInt16, h1, h2]
    rw [if_pos (show (-1 : ℚ) < 0 by norm_num)]
    unfold ratTrunc
    rw [show ((-1 : ℚ) * 0x8000) = ((-32768 : ℤ) : ℚ) by norm_num]
    rw [if_pos (show ((-32768 : ℤ) : ℚ) < 0 by norm_num), Int.ceil_intCast]
  · intro x hx
    have h1 : min 1 x = 1 := min_eq_left hx
    have h2 : max (-1 : ℚ) (1 : ℚ) = 1 := max_eq_right (by norm_num)
    simp only [AudioProcessor.float32ToInt16, h1, h2]
    rw [if_neg (show ¬ ((1 : ℚ) < 0) by norm_num)]
    unfold ratTrunc
    rw [show ((1 : ℚ) * 0x7FFF) = ((32767 : ℤ) : ℚ) by norm_num]
    rw [if_neg (show ¬ (((32767 : ℤ) : ℚ) < 0) by norm_num), Int.floor_intCast]

/-- C5 witness: both saturation branches at concrete out-of-range inputs. -/
theorem float32ToInt16_range_witness :
    AudioProcessor.float32ToInt16 (-2) = -32768
    ∧ AudioProcessor.float32ToInt16 (3/2) = 32767 :=
  ⟨float32ToInt16_range.2.1 (-2) (by norm_num),
   float32ToInt16_range.2.2 (3/2) (by norm_num)⟩

/-- C4: the downsampler emits exactly round(n * 16000/48000) samples for a
48 kHz to 16 kHz conversion of an n-sample buffer, returns the input
unchanged when source and target rates are equal, and preserves the peak
amplitude of the sampled sine wave exactly (tolerance 0) on the embedded
2 kHz test buffer. -/
theorem downsample_spec :
    (∀ buf : List ℚ, buf ≠ [] →
      (AudioProcessor.downsample buf 48000 16000).length
        = (jsRound ((buf.length : ℚ) * 16000 / 48000)).toNat)
    ∧ (∀ (buf : List ℚ) (rate : ℚ), AudioProcessor.downsample buf rate rate = buf)
    ∧ AudioProcessor.maxAbs (AudioProcessor.downsample AudioProcessor.sineBuf 48000 16000)
        = AudioProcessor.maxAbs AudioProcessor.sineBuf := by
  refine ⟨?_, ?_, ?_⟩
  · intro buf _
    rw [downsample_48k_16k, List.length_map, List.length_range]
    congr 2
    ring
  · intro buf rate
    simp [AudioProcessor.downsample]
  · rw [sineBuf_downsampled]
    norm_num [AudioProcessor.maxAbs, AudioProcessor.sineBuf, max_def, abs]

/-- C4 witness: a concrete 3-sample buffer has round(3/3) = 1 output sample. -/
theorem downsample_spec_witness :
    (AudioProcessor.downsample [1, 0, 0] 48000 16000).length
      = (jsRound ((([1, 0, 0] : List ℚ).length : ℚ) * 16000 / 48000)).toNat :=
  downsample_spec.1 [1, 0, 0] (by simp)

/-! ## Lip-sync decay (C8) -/

/-- A decay tick never changes the detected lip-sync mode. -/
theorem decayTick_mode (s : LipState) : (decayTick s).mode = s.mode := by
  rcases s with ⟨mode, v, aa, e, o, i, u, mo⟩
  cases mode <;> rfl

/-- The smoothed volume after one decay tick, in closed form. -/
theorem decayTick_vol (s : LipState) :
    (decayTick s).smoothVol = if 1/1000 < s.smoothVol then s.smoothVol * (7/10) else 0 := by
  rcases s with ⟨mode, v, aa, e, o, i, u, mo⟩
  cases mode <;> rfl

/-- One tick keeps the volume non-negative and shrinks it by at least the
factor 0.7. -/
theorem decayTick_vol_le (s : LipState) (h : 0 ≤ s.smoothVol) :
    0 ≤ (decayTick s).smoothVol ∧ (decayTick s).smoothVol ≤ (7/10) * s.smoothVol := by
  rw [decayTick_vol]
  by_cases hc : 1/1000 < s.smoothVol
  · rw [if_pos hc]
    constructor
    · positivity
    · linarith
  · rw [if_neg hc]
    exact ⟨le_refl 0, by positivity⟩

/-- After n ticks the volume is bounded by (7/10)^n times the start. -/
theorem decayN_vol_bound (n : ℕ) (s : LipState) (h : 0 ≤ s.smoothVol) :
    0 ≤ (decayN n s).smoothVol
    ∧ (decayN n s).smoothVol ≤ (7/10 : ℚ)^n * s.smoothVol := by
  induction n with
  | zero => exact ⟨h, by simp [decayN]⟩
  | succ k ih =>
    obtain ⟨ih0, ih1⟩ := ih
    obtain ⟨h0, h1⟩ := decayTick_vol_le (decayN k s) ih0
    refine ⟨h0, ?_⟩
    calc (decayN (k+1) s).smoothVol ≤ (7/10) * (decayN k s).smoothVol := h1
      _ ≤ (7/10) * ((7/10 : ℚ)^k * s.smoothVol) := by nlinarith
      _ = (7/10 : ℚ)^(k+1) * s.smoothVol := by ring

/-- A tick from at or below the threshold zeroes the volume and clears every
override driven in the current mode. -/
theorem decayTick_clears (s : LipState) (h : s.smoothVol ≤ 1/1000) :
    (decayTick s).smoothVol = 0 ∧ overridesCleared (decayTick s) := by
  have hz : ¬ ((1 : ℚ)/1000 < 0) := by norm_num
  have hv : ¬ (1/1000 < s.smoothVol) := not_lt.mpr h
  rcases s with ⟨mode, v, aa, e, o, i, u, mo⟩
  simp only at hv
  cases mode
  · cases aa
    · simp only [decayTick, overridesCleared, if_neg hv, if_neg hz]
      exact ⟨trivial, trivial, trivial, trivial, trivial, trivial⟩
    · simp only [decayTick, overridesCleared, if_neg hv, if_neg hz]
      exact ⟨trivial, trivial, trivial, trivial, trivial, trivial⟩
  · cases mo
    · simp only [decayTick, overridesCleared, if_neg hv, if_neg hz]
      exact ⟨trivial, trivial⟩
    · simp only [decayTick, overridesCleared, if_neg hv, if_neg hz]
      exact ⟨trivial, trivial⟩

/-- C8: once speaking is false, the smoothed volume strictly decreases on
every tick while positive (by exactly the factor 0.7 while above the 0.001
threshold) until it reaches zero, and within 21 ticks from any volume in
[0, 1] the volume is exactly zero and every viseme/mouthOpen realtime
override driven by the patch is cleared to null rather than held. -/
theorem lipsync_decay :
    (∀ s : LipState, 0 < s.smoothVol → (decayTick s).smoothVol < s.smoothVol)
    ∧ (∀ s : LipState, 1/1000 < s.smoothVol →
        (decayTick s).smoothVol = s.smoothVol * (7/10))
    ∧ (∀ s : LipState, 0 ≤ s.smoothVol → s.smoothVol ≤ 1 →
        (decayN 21 s).smoothVol = 0 ∧ overridesCleared (decayN 21 s)) := by
  refine ⟨?_, ?_, ?_⟩
  · intro s h
    rw [decayTick_vol]
    by_cases hc : 1/1000 < s.smoothVol
    · rw [if_pos hc]; nlinarith
    · rw [if_neg hc]; exact h
  · intro s h
    rw [decayTick_vol, if_pos h]
  · intro s h0 h1
    have hb := decayN_vol_bound 20 s h0
    have hsmall : (decayN 20 s).smoothVol ≤ 1/1000 := by
      have hpow : (7/10 : ℚ)^20 * s.smoothVol ≤ (7/10 : ℚ)^20 * 1 := by
        have : (0 : ℚ) ≤ (7/10 : ℚ)^20 := by positivity
        nlinarith
      have h20 : (7/10 : ℚ)^20 ≤ 1/1000 := by norm_num
      calc (decayN 20 s).smoothVol ≤ (7/10 : ℚ)^20 * s.smoothVol := hb.2
        _ ≤ (7/10 : ℚ)^20 * 1 := hpow
        _ = (7/10 : ℚ)^20 := by ring
        _ ≤ 1/1000 := h20
    exact decayTick_clears (decayN 20 s) hsmall

/-- C8 witness: from volume 1/2 with all overrides forced, one tick strictly
decreases the volume, and 21 ticks clear everything. -/
theorem lipsync_decay_witness :
    ((decayTick ⟨LipMode.viseme, 1/2, some (1/2), some 1, some 1, none, none, none⟩).smoothVol
        < (1/2 : ℚ))
    ∧ ((decayN 21 ⟨LipMode.viseme, 1/2, some (1/2), some 1, some 1, none, none, none⟩).smoothVol = 0
        ∧ overridesCleared (decayN 21 ⟨LipMode.viseme, 1/2, some (1/2), some 1, some 1, none, none, none⟩)) :=
  ⟨lipsync_decay.1 _ (by norm_num),
   lipsync_decay.2.2 _ (by norm_num) (by norm_num)⟩

/-! ## Relay (C6, C7, C9, C10) and interruption (C3) -/

/-- C6: any audio_chunk, text_message or tool_response received without a
live upstream session (no session handle or inactive) is a no-op: the
connection state is unchanged, nothing is forwarded and no error is
raised. -/
theorem no_session_client_message_noop :
    ∀ (cf : Bool) (st : ConnState),
      (st.geminiSession = false ∨ st.sessionActive = false) →
      ∀ (d t id name : String) (result : Option String),
        handleClientMessage cf st (ClientMsg.audioChunk d) = (st, [])
        ∧ handleClientMessage cf st (ClientMsg.textMessage t) = (st, [])
        ∧ handleClientMessage cf st (ClientMsg.toolResponse id name result) = (st, []) := by
  intro cf st h d t id name result
  have hc : ¬ (st.geminiSession = true ∧ st.sessionActive = true) := by
    rcases h with h | h <;> simp [h]
  refine ⟨?_, ?_, ?_⟩ <;> simp [handleClientMessage, hc]

/-- C6 witness: a concrete idle connection ignores all three messages. -/
theorem no_session_client_message_noop_witness :
    handleClientMessage false ⟨false, false, 0, 0, true⟩ (ClientMsg.audioChunk "UklG")
        = (⟨false, false, 0, 0, true⟩, [])
    ∧ handleClientMessage false ⟨false, false, 0, 0, true⟩ (ClientMsg.textMessage "hi")
        = (⟨false, false, 0, 0, true⟩, [])
    ∧ handleClientMessage false ⟨false, false, 0, 0, true⟩
          (ClientMsg.toolResponse "1" "set_mood" none)
        = (⟨false, false, 0, 0, true⟩, []) :=
  no_session_client_message_noop false ⟨false, false, 0, 0, true⟩ (Or.inl rfl)
    "UklG" "hi" "1" "set_mood" none

/-- C7: the stop_session handler never depends on whether closing the
upstream session throws (the failure is swallowed), stopping twice leaves
the same state as stopping once, no error message is ever emitted by a
stop, and any non-empty sequence of stop_session messages ends with the
session in the ended state (inactive, no upstream handle). -/
theorem stop_session_safe :
    (∀ (cf cf2 : Bool) (st : ConnState) (m : ClientMsg),
       handleClientMessage cf st m = handleClientMessage cf2 st m)
    ∧ (∀ (cf : Bool) (st : ConnState),
        (handleClientMessage cf (handleClientMessage cf st ClientMsg.stopSession).1
            ClientMsg.stopSession).1
          = (handleClientMessage cf st ClientMsg.stopSession).1)
    ∧ (∀ (cf : Bool) (st : ConnState) (msg : String),
        ServerEffect.send (DownMsg.errorMsg msg) ∉
          (handleClientMessage cf st ClientMsg.stopSession).2)
    ∧ (∀ (cf : Bool) (st : ConnState) (n : ℕ), 0 < n →
        (runClientMessages cf st (List.replicate n ClientMsg.stopSession)).sessionActive = false
        ∧ (runClientMessages cf st (List.replicate n ClientMsg.stopSession)).geminiSession = false) := by
  refine ⟨?_, ?_, ?_, ?_⟩
  · intro cf cf2 st m
    rfl
  · intro cf st
    rfl
  · intro cf st msg
    simp only [handleClientMessage, sendToClient]
    split_ifs <;> simp
  · have key : ∀ (cf : Bool) (n : ℕ) (st : ConnState),
        (runClientMessages cf st (List.replicate (n+1) ClientMsg.stopSession)).sessionActive = false
        ∧ (runClientMessages cf st (List.replicate (n+1) ClientMsg.stopSession)).geminiSession = false := by
      intro cf n
      induction n with
      | zero => intro st; exact ⟨rfl, rfl⟩
      | succ k ih =>
        intro st
        exact ih ((handleClientMessage cf st ClientMsg.stopSession).1)
    intro cf st n hn
    obtain ⟨m, rfl⟩ : ∃ m, n = m + 1 := ⟨n - 1, by omega⟩
    exact key cf m st

/-- C7 witness: stopping a live session twice ends inactive with no handle. -/
theorem stop_session_safe_witness :
    (runClientMessages false ⟨true, true, 3, 4, true⟩
        (List.replicate 2 ClientMsg.stopSession)).sessionActive = false
    ∧ (runClientMessages false ⟨true, true, 3, 4, true⟩
        (List.replicate 2 ClientMsg.stopSession)).geminiSession = false :=
  stop_session_safe.2.2.2 false ⟨true, true, 3, 4, true⟩ 2 (by norm_num)

/-- C9: every stop_session message makes the relay send exactly one
session_ended reply to the (open) client socket, whatever the session
state: never started, live, or already ended. -/
theorem stop_session_sends_session_ended_once :
    ∀ (cf : Bool) (st : ConnState), st.wsOpen = true →
      countSessionEnded (handleClientMessage cf st ClientMsg.stopSession).2 = 1 := by
  intro cf st h
  by_cases hg : st.geminiSession = true <;>
    simp [handleClientMessage, sendToClient, h, hg, countSessionEnded]

/-- C9 witness: a stop with no session ever started still sends exactly one
session_ended. -/
theorem stop_session_sends_session_ended_once_witness :
    countSessionEnded
        (handleClientMessage false ⟨false, false, 0, 0, true⟩ ClientMsg.stopSession).2 = 1 :=
  stop_session_sends_session_ended_once false ⟨false, false, 0, 0, true⟩ rfl

/-- C10: an upstream serverContent event with the interrupted flag set
produces exactly the single downstream interrupted message and nothing
else from that event (no audio_chunk, transcription, text or turn_complete),
because the handler returns immediately; the connection state (including
the per-turn audio counter) is untouched. -/
theorem interrupted_exclusive_downstream :
    ∀ (st : ConnState) (m : GeminiMessage) (sc : ServerContent),
      m.setupComplete = false → m.toolCall = none → m.serverContent = some sc →
      sc.interrupted = true → st.wsOpen = true →
      handleGeminiMessage st m = (st, [ServerEffect.send DownMsg.interrupted]) := by
  intro st m sc h1 h2 h3 h4 h5
  simp [handleGeminiMessage, h1, h2, h3, h4, sendToClient, h5]

/-- C10 witness: a concrete interrupted event carrying transcription, parts
and turnComplete fields still yields only the interrupted message. -/
theorem interrupted_exclusive_downstream_witness :
    handleGeminiMessage ⟨true, true, 5, 2, true⟩
        ⟨false, none,
         some ⟨true, some "hello", some "hi", some [⟨some ⟨"QUJD", "audio/pcm"⟩, some "t"⟩], true⟩,
         false⟩
      = (⟨true, true, 5, 2, true⟩, [ServerEffect.send DownMsg.interrupted]) :=
  interrupted_exclusive_downstream ⟨true, true, 5, 2, true⟩ _ _ rfl rfl rfl rfl rfl

/-- C3: an upstream interrupted signal is relayed downstream as the single
interrupted message; on receipt while the stream is active the client
discards the buffered worklet audio (streamInterrupt), resets the per-turn
audio-chunk counter (with the byte and duration counters), and moves the
status to listening; a turn_complete moves the status to listening without
discarding: the stream state is untouched and no streamInterrupt is sent. -/
theorem interrupted_discards_and_resets :
    (∀ (st : ConnState) (m : GeminiMessage) (sc : ServerContent),
      m.setupComplete = false → m.toolCall = none → m.serverContent = some sc →
      sc.interrupted = true →
      handleGeminiMessage st m = (st, sendToClient st DownMsg.interrupted))
    ∧ (∀ app : AppState, app.stream.isStreamActive = true →
        (handleServerMessage app DownMsg.interrupted).1.stream.audioChunkCount = 0
        ∧ (handleServerMessage app DownMsg.interrupted).1.stream.totalBytesReceived = 0
        ∧ (handleServerMessage app DownMsg.interrupted).1.stream.totalAudioDurationMs = 0
        ∧ ClientEffect.streamInterrupt ∈ (handleServerMessage app DownMsg.interrupted).2
        ∧ (handleServerMessage app DownMsg.interrupted).1.statusState = "listening")
    ∧ (∀ app : AppState,
        (handleServerMessage app DownMsg.turnComplete).1.statusState = "listening"
        ∧ (handleServerMessage app DownMsg.turnComplete).1.stream = app.stream
        ∧ ClientEffect.streamInterrupt ∉ (handleServerMessage app DownMsg.turnComplete).2) := by
  refine ⟨?_, ?_, ?_⟩
  · intro st m sc h1 h2 h3 h4
    simp [handleGeminiMessage, h1, h2, h3, h4]
  · intro app h
    simp [handleServerMessage, StreamingHandler.interrupt, StreamingHandler.reset, h]
  · intro app
    refine ⟨rfl, rfl, ?_⟩
    simp [handleServerMessage]

/-- C3 witness: a concrete speaking client on interrupted resets and moves
to listening. -/
theorem interrupted_discards_and_resets_witness :
    (handleServerMessage ⟨⟨true, 7, 1000, 20⟩, "speaking", true⟩
        DownMsg.interrupted).1.stream.audioChunkCount = 0
    ∧ (handleServerMessage ⟨⟨true, 7, 1000, 20⟩, "speaking", true⟩
        DownMsg.interrupted).1.stream.totalBytesReceived = 0
    ∧ (handleServerMessage ⟨⟨true, 7, 1000, 20⟩, "speaking", true⟩
        DownMsg.interrupted).1.stream.totalAudioDurationMs = 0
    ∧ ClientEffect.streamInterrupt ∈
        (handleServerMessage ⟨⟨true, 7, 1000, 20⟩, "speaking", true⟩ DownMsg.interrupted).2
    ∧ (handleServerMessage ⟨⟨true, 7, 1000, 20⟩, "speaking", true⟩
        DownMsg.interrupted).1.statusState = "listening" :=
  interrupted_discards_and_resets.2.1 ⟨⟨true, 7, 1000, 20⟩, "speaking", true⟩ rfl

/-! ## Tool-call dispatcher (C1, C2) -/

/-- C1 counterexample: dispatching set_mood with the mood "ecstatic", which
is outside the declared enum {happy, sad, neutral, angry, love}, does not
return an error-describing result and does perform an avatar side effect:
the dispatcher returns the success string "Mood set to ecstatic", mutates
currentMood to "ecstatic" and issues the head.setMood call. -/
theorem set_mood_invalid_enum_counterexample :
    "ecstatic" ∉ moodEnum
    ∧ (AvatarController.handleToolCall ⟨"neutral", false⟩ "set_mood"
        { mood := some "ecstatic" }).1 = "Mood set to ecstatic"
    ∧ ¬ ((AvatarController.handleToolCall ⟨"neutral", false⟩ "set_mood"
          { mood := some "ecstatic" }).2.1 = ⟨"neutral", false⟩
        ∧ (AvatarController.handleToolCall ⟨"neutral", false⟩ "set_mood"
          { mood := some "ecstatic" }).2.2 = [])
    ∧ (AvatarController.handleToolCall ⟨"neutral", false⟩ "set_mood"
        { mood := some "ecstatic" }).2.1.currentMood = "ecstatic" := by
  refine ⟨by decide, rfl, ?_, rfl⟩
  intro h
  exact absurd h.2 (by decide)

/-- C1 amended: only unknown tool names are rejected: they yield the error
result string with no state change and no head call; enum arguments are
not validated, so set_mood with any mood string (valid or not) returns the
success string, records the mood and issues the head call (whose possible
failure is caught inside setMood, so nothing crashes). -/
theorem handleToolCall_unknown_tool_and_mood :
    (∀ (st : AvatarState) (name : String) (args : ToolArgs),
       name ∉ ["set_mood", "set_expression", "play_gesture", "play_animation",
               "set_camera_view"] →
       AvatarController.handleToolCall st name args = ("Unknown tool: " ++ name, st, []))
    ∧ (∀ (st : AvatarState) (mood : String),
       AvatarController.handleToolCall st "set_mood" { mood := some mood }
         = ("Mood set to " ++ mood, { st with currentMood := mood },
            [HeadEffect.setMoodHead mood])) := by
  constructor
  · intro st name args h
    simp only [List.mem_cons, List.not_mem_nil, or_false, not_or] at h
    obtain ⟨h1, h2, h3, h4, h5⟩ := h
    simp [AvatarController.handleToolCall, h1, h2, h3, h4, h5]
  · intro st mood
    simp [AvatarController.handleToolCall, AvatarController.setMood]

/-- C1 witness: the unknown tool "dance" gets the named-error result and no
side effect. -/
theorem handleToolCall_unknown_tool_and_mood_witness :
    AvatarController.handleToolCall ⟨"neutral", false⟩ "dance" {}
      = ("Unknown tool: dance", ⟨"neutral", false⟩, []) :=
  handleToolCall_unknown_tool_and_mood.1 ⟨"neutral", false⟩ "dance" {} (by decide)

/-- C2 counterexample: dispatching play_animation with the name "dab",
absent from the catalog, returns the success-shaped string
"Playing animation dab" (and the character sequence "not found" does not occur in it),
not a not-found result; the absent lookup itself causes no visual effect. -/
theorem play_animation_not_found_counterexample :
    getAnimation "dab" = none
    ∧ (AvatarController.handleToolCall ⟨"neutral", false⟩ "play_animation"
        { animation := some "dab" }).1 = "Playing animation dab"
    ∧ ¬ List.IsInfix "not found".toList
        ((AvatarController.handleToolCall ⟨"neutral", false⟩ "play_animation"
          { animation := some "dab" }).1).toList
    ∧ (AvatarController.handleToolCall ⟨"neutral", false⟩ "play_animation"
        { animation := some "dab" }).2.2 = [] := by
  refine ⟨by decide, rfl, by decide, by decide⟩

/-- C2 amended: for an animation name absent from the catalog,
playAnimation returns false with no visual effect and no escaping
exception (the lookup branch performs no throwing operation and returns
before any head call), while the dispatcher returns the success string
"Playing animation name", leaving the controller state unchanged. -/
theorem play_animation_missing_no_effect :
    ∀ (name : String) (dur : Option ℚ), getAnimation name = none →
      AvatarController.playAnimation name dur = (false, [])
      ∧ ∀ st : AvatarState,
          AvatarController.handleToolCall st "play_animation"
              { animation := some name, duration := dur }
            = ("Playing animation " ++ name, st, []) := by
  intro name dur h
  constructor
  · simp [AvatarController.playAnimation, h]
  · intro st
    simp [AvatarController.handleToolCall, AvatarController.playAnimation, h]

/-- C2 witness: the absent name "dab" yields (false, no effects) from
playAnimation. -/
theorem play_animation_missing_no_effect_witness :
    AvatarController.playAnimation "dab" none = (false, []) :=
  (play_animation_missing_no_effect "dab" none (by decide)).1
